import Mathlib

/-!
Verification of the geocoding notebook of this repository.

The notebook has two code cells of interest:
cell 1 defines configuration constants and the function geocode_address,
which sleeps for a fixed delay, issues one HTTP GET to the
OpenRouteService structured-geocode endpoint with six urlencoded query
parameters, and on HTTP 200 parses the first feature of the JSON body
into a 10-tuple (all-None tuple on any other status);
cell 2 is the main loop: it writes a fixed 11-column CSV header, then for
each input row calls geocode_address and writes one 11-cell CSV row,
breaking after the row counter reaches max_rows_to_process.

The embedding models JSON values as an inductive type, Python runtime
errors (KeyError, IndexError, TypeError, ValueError, AttributeError and
json decode errors) as an error type threaded through Except, the HTTP
layer as an oracle mapping request URLs to responses, and the observable
side effects of a call (sleeping, issuing the GET, printing) as an
explicit trace.
-/

namespace OsmGeocode

/-- A JSON value, as produced by Python's json module: objects are
association lists of string keys (Python dicts preserve insertion order
and have unique keys, so lookup of the first match is dict access). -/
inductive Json where
  | null : Json
  | bool : Bool → Json
  | num : Int → Json
  | str : String → Json
  | arr : List Json → Json
  | obj : List (String × Json) → Json

/-- The Python exceptions the notebook's code can raise. -/
inductive PyExc where
  | keyError : String → PyExc
  | indexError : PyExc
  | typeError : PyExc
  | valueError : PyExc
  | attributeError : PyExc
  | jsonDecodeError : PyExc
deriving Repr, DecidableEq

/-- An HTTP response as seen by the notebook: a status code and a body
that either parses as JSON (some j) or does not (none). -/
structure Response where
  status_code : Int
  body : Option Json

/-- Python subscript d[k] with a string key: the value for a dict that
has the key, KeyError for a dict without it, TypeError otherwise. -/
def pySubscript (j : Json) (k : String) : Except PyExc Json :=
  match j with
  | Json.obj fields =>
    match fields.lookup k with
    | some v => Except.ok v
    | none => Except.error (PyExc.keyError k)
  | _ => Except.error PyExc.typeError

/-- Python subscript xs[i] with an integer index on a list: the element,
IndexError when out of range, TypeError on a non-list. -/
def pyIndex (j : Json) (i : Nat) : Except PyExc Json :=
  match j with
  | Json.arr elems =>
    match elems.get? i with
    | some v => Except.ok v
    | none => Except.error PyExc.indexError
  | _ => Except.error PyExc.typeError

/-- Python d.get(k, default): the value when the dict has the key, the
default when it does not, AttributeError on a non-dict. -/
def pyDictGet (j : Json) (k : String) (default : Json) : Except PyExc Json :=
  match j with
  | Json.obj fields => Except.ok ((fields.lookup k).getD default)
  | _ => Except.error PyExc.attributeError

/-- Python tuple unpacking a, b = xs of a two-element list: ValueError on
a list of any other length, TypeError on a non-list. -/
def pyUnpack2 (j : Json) : Except PyExc (Json × Json) :=
  match j with
  | Json.arr [a, b] => Except.ok (a, b)
  | Json.arr _ => Except.error PyExc.valueError
  | _ => Except.error PyExc.typeError

/-- response.json(): the parsed body, or a json decode error when the
body is not parseable JSON. -/
def response_json (r : Response) : Except PyExc Json :=
  match r.body with
  | some j => Except.ok j
  | none => Except.error PyExc.jsonDecodeError

/-- The 10-tuple returned by geocode_address; None components are
modelled by Option.none. -/
structure ResultTuple where
  latitude : Option Json
  longitude : Option Json
  source : Option Json
  accuracy : Option Json
  match_type : Option Json
  matched_address : Option Json
  matched_locality : Option Json
  matched_postalcode : Option Json
  matched_region : Option Json
  matched_country : Option Json

/-- The components of the tuple in return order. -/
def ResultTuple.toList (t : ResultTuple) : List (Option Json) :=
  [t.latitude, t.longitude, t.source, t.accuracy, t.match_type,
   t.matched_address, t.matched_locality, t.matched_postalcode,
   t.matched_region, t.matched_country]

/-- The all-None tuple returned on a non-200 status. -/
def none_tuple : ResultTuple :=
  ⟨none, none, none, none, none, none, none, none, none, none⟩

/-- Configuration constant delay_seconds = 1 of cell 1. -/
def delay_seconds : Int := 1

/-- The fixed base URL of the OpenRouteService structured geocode API. -/
def base_url : String := "https://api.openrouteservice.org/geocode/search/structured"

/-- One byte of the UTF-8 encoding as a number below 256; urlencode
percent-escapes each byte of a non-safe character. -/
def utf8Bytes (c : Char) : List Nat :=
  let n := c.toNat
  if n < 0x80 then [n]
  else if n < 0x800 then [0xC0 + n / 0x40, 0x80 + n % 0x40]
  else if n < 0x10000 then
    [0xE0 + n / 0x1000, 0x80 + (n / 0x40) % 0x40, 0x80 + n % 0x40]
  else
    [0xF0 + n / 0x40000, 0x80 + (n / 0x1000) % 0x40,
     0x80 + (n / 0x40) % 0x40, 0x80 + n % 0x40]

/-- An uppercase hexadecimal digit. -/
def hexDigit (n : Nat) : Char :=
  if n < 10 then Char.ofNat (48 + n) else Char.ofNat (55 + n)

/-- A percent escape of one byte, with uppercase hex as Python emits. -/
def percentByte (b : Nat) : String :=
  String.mk ['%', hexDigit (b / 16 % 16), hexDigit (b % 16)]

/-- The characters urllib never escapes: letters, digits and _.-~ . -/
def isAlwaysSafe (c : Char) : Bool :=
  (97 ≤ c.toNat && c.toNat ≤ 122) || (65 ≤ c.toNat && c.toNat ≤ 90) ||
  (48 ≤ c.toNat && c.toNat ≤ 57) ||
  c = '_' || c = '.' || c = '-' || c = '~'

/-- urllib.parse.quote_plus with the empty safe set, as urlencode applies
it to each key and value: safe characters kept, space turned into +,
every other character percent-escaped byte by byte in UTF-8. -/
def quote_plus (s : String) : String :=
  String.join (s.toList.map (fun c =>
    if isAlwaysSafe c then String.mk [c]
    else if c = ' ' then "+"
    else String.join ((utf8Bytes c).map percentByte)))

/-- urllib.parse.urlencode: key=value pairs quoted with quote_plus and
joined by ampersands, in the order given. -/
def urlencode (params : List (String × String)) : String :=
  String.intercalate "&" (params.map (fun kv => quote_plus kv.1 ++ "=" ++ quote_plus kv.2))

/-- The params dict built inside geocode_address, in insertion order. -/
def geocode_params (api_key address locality postalcode region country : String) :
    List (String × String) :=
  [("api_key", api_key), ("address", address), ("locality", locality),
   ("postalcode", postalcode), ("region", region), ("country", country)]

/-- The full_url formed inside geocode_address. -/
def geocode_full_url (api_key address locality postalcode region country : String) : String :=
  base_url ++ "?" ++ urlencode (geocode_params api_key address locality postalcode region country)

/-- An observable side effect of a geocode_address call. -/
inductive Effect where
  | sleep : Int → Effect
  | httpGet : String → Effect
  | printResp : Response → Effect
  | printLine : String → Effect

/-- Whether an effect is the issuing of an HTTP GET request. -/
def Effect.isHttpGet : Effect → Bool
  | Effect.httpGet _ => true
  | _ => false

/-- The body of the status-200 branch of geocode_address, applied to the
response: parse the body, take the first feature, destructure its
geometry coordinates as (longitude, latitude), read source, accuracy and
match_type by subscript, read the five matched components with default
N/A, and return the 10-tuple in (latitude, longitude, ...) order; any
other status returns the all-None tuple. -/
def geocode_result (response : Response) : Except PyExc ResultTuple :=
  if response.status_code = 200 then do
    let geocoded_data ← response_json response
    let features ← pySubscript geocoded_data "features"
    let first_feature ← pyIndex features 0
    let properties ← pySubscript first_feature "properties"
    let geometry ← pySubscript first_feature "geometry"
    let coordinates ← pySubscript geometry "coordinates"
    let lonlat ← pyUnpack2 coordinates
    let longitude := lonlat.1
    let latitude := lonlat.2
    let source ← pySubscript properties "source"
    let accuracy ← pySubscript properties "accuracy"
    let match_type ← pySubscript properties "match_type"
    let matched_address ← pyDictGet properties "street" (Json.str "N/A")
    let matched_locality ← pyDictGet properties "locality" (Json.str "N/A")
    let matched_postalcode ← pyDictGet properties "postalcode" (Json.str "N/A")
    let matched_region ← pyDictGet properties "region" (Json.str "N/A")
    let matched_country ← pyDictGet properties "country" (Json.str "N/A")
    pure ⟨some latitude, some longitude, some source, some accuracy, some match_type,
      some matched_address, some matched_locality, some matched_postalcode,
      some matched_region, some matched_country⟩
  else
    pure none_tuple

/-- geocode_address of cell 1, against an HTTP oracle mapping request
URLs to responses: sleep delay_seconds, form the full URL from the six
query parameters, issue the GET, print the response and a separator, and
produce the parse of the response. The first component is the trace of
observable effects in program order, the second the returned tuple or
the raised exception. -/
def geocode_address (api_key address locality postalcode region country : String)
    (http : String → Response) : List Effect × Except PyExc ResultTuple :=
  let full_url := geocode_full_url api_key address locality postalcode region country
  let response := http full_url
  ([Effect.sleep delay_seconds, Effect.httpGet full_url,
    Effect.printResp response, Effect.printLine "-----------"],
   geocode_result response)

/-- One row of the input attribute table, with the six fields the cursor
reads in order: STR_ID, Address, City, Code, State__Province_, Country,
named as the main loop names them. -/
structure InputRow where
  str_id : String
  address : String
  locality : String
  postalcode : String
  region : String
  country : String
deriving Repr, DecidableEq

/-- The lookup the main loop performs for one input row. -/
def geocode_row (http : String → Response) (api_key : String) (row : InputRow) :
    Except PyExc ResultTuple :=
  (geocode_address api_key row.address row.locality row.postalcode row.region row.country http).2

/-- The fixed header row the main loop writes first; CSV cells are
Python values, so each header cell is a string and a data cell is an
optional JSON value (none is Python's None). -/
def header_row : List (Option Json) :=
  [some (Json.str "STR_ID"), some (Json.str "Latitude"), some (Json.str "Longitude"),
   some (Json.str "Source"), some (Json.str "Accuracy"), some (Json.str "Match_Type"),
   some (Json.str "Matched_Address"), some (Json.str "Matched_Locality"),
   some (Json.str "Matched_Postalcode"), some (Json.str "Matched_Region"),
   some (Json.str "Matched_Country")]

/-- The cursor loop of cell 2, from row counter n on: geocode the row;
an exception stops the run with nothing further written; otherwise write
the row STR_ID followed by the 10 tuple components and break when
n has reached max_rows_to_process, else continue with n + 1. Returns the
data rows written and the exception that ended the run, if any. -/
def process_rows (http : String → Response) (api_key : String) (max_rows_to_process : Int) :
    List InputRow → Int → List (List (Option Json)) × Option PyExc
  | [], _ => ([], none)
  | row :: rest, n =>
    match geocode_row http api_key row with
    | Except.error e => ([], some e)
    | Except.ok res =>
      let out := some (Json.str row.str_id) :: res.toList
      if n ≥ max_rows_to_process then ([out], none)
      else
        let r := process_rows http api_key max_rows_to_process rest (n + 1)
        (out :: r.1, r.2)

/-- The main loop of cell 2: write the fixed header, then run the cursor
loop with the row counter starting at 1. Returns all CSV rows written in
order and the exception that ended the run, if any. -/
def main_loop (http : String → Response) (api_key : String) (max_rows_to_process : Int)
    (rows : List InputRow) : List (List (Option Json)) × Option PyExc :=
  let r := process_rows http api_key max_rows_to_process rows 1
  (header_row :: r.1, r.2)

/-- An HTTP oracle in which every request fails with status 404 (and a
body that is not JSON), used to exercise the non-200 path. -/
def http_404 : String → Response := fun _ => ⟨404, none⟩

/-- Sample input rows. -/
def sample_row_1 : InputRow := ⟨"S1", "1 Main St", "Springfield", "1111", "VIC", "AU"⟩

/-- A second sample input row. -/
def sample_row_2 : InputRow := ⟨"S2", "2 High St", "Shelbyville", "2222", "NSW", "AU"⟩

/-- A third sample input row. -/
def sample_row_3 : InputRow := ⟨"S3", "3 Low Rd", "Ogdenville", "3333", "QLD", "AU"⟩

/-- A well-formed geocoding response body with one feature, whose
properties carry source, accuracy, match_type and a street but none of
the other optional components. -/
def sample_body : Json :=
  Json.obj [("features", Json.arr [Json.obj
    [("properties", Json.obj
      [("source", Json.str "openstreetmap"), ("accuracy", Json.str "point"),
       ("match_type", Json.str "exact"), ("street", Json.str "Main St")]),
     ("geometry", Json.obj [("coordinates", Json.arr [Json.num 151, Json.num (-33)])])]])]

/-- A response body like sample_body but whose properties lack the
accuracy key. -/
def body_no_accuracy : Json :=
  Json.obj [("features", Json.arr [Json.obj
    [("properties", Json.obj
      [("source", Json.str "openstreetmap"), ("match_type", Json.str "exact"),
       ("street", Json.str "Main St")]),
     ("geometry", Json.obj [("coordinates", Json.arr [Json.num 151, Json.num (-33)])])]])]

/-- The response the main loop's call for one input row observes. -/
def row_response (http : String → Response) (api_key : String) (row : InputRow) : Response :=
  http (geocode_full_url api_key row.address row.locality row.postalcode row.region row.country)

/-- An HTTP oracle answering 200 with an empty features array. -/
def http_200_empty_features : String → Response :=
  fun _ => ⟨200, some (Json.obj [("features", Json.arr [])])⟩

/-- Whether a lookup returned a tuple rather than raising. -/
def okB : Except PyExc ResultTuple → Bool
  | Except.ok _ => true
  | Except.error _ => false

/-- The CSV data row the main loop writes for an input row whose lookup
returns a tuple. -/
def out_row (http : String → Response) (api_key : String) (row : InputRow) :
    List (Option Json) :=
  some (Json.str row.str_id) :: ((geocode_row http api_key row).toOption.getD none_tuple).toList

/-! Helper lemmas about the Except monad used to push results through
the do-chain of geocode_result. -/

/-- Bind on a successful Except applies the continuation. -/
@[simp]
theorem exceptBind_ok {α β : Type} (a : α) (f : α → Except PyExc β) :
    (Except.ok a >>= f) = f a := rfl

/-- Bind on a failed Except propagates the error. -/
@[simp]
theorem exceptBind_error {α β : Type} (e : PyExc) (f : α → Except PyExc β) :
    ((Except.error e : Except PyExc α) >>= f) = Except.error e := rfl

/-- Claim C3: for every HTTP response whose status code is not 200,
geocode_address returns the 10-tuple in which every component is None;
the result is the same constant all-None tuple whatever the status code
and body are, so no non-200 outcome is distinguished from another. -/
theorem claim_c3_non200_all_none (api_key address locality postalcode region country : String)
    (http : String → Response)
    (h : (http (geocode_full_url api_key address locality postalcode region country)).status_code ≠ 200) :
    (geocode_address api_key address locality postalcode region country http).2 =
      Except.ok none_tuple := by
  show geocode_result _ = _
  rw [geocode_result, if_neg h]
  rfl

/-- Witness for C3 at a concrete oracle answering 404 everywhere. -/
theorem claim_c3_witness :
    (geocode_address "k" "a" "l" "p" "r" "c" http_404).2 = Except.ok none_tuple :=
  claim_c3_non200_all_none "k" "a" "l" "p" "r" "c" http_404 (by decide)

/-- Claim C4: in every run of the main loop, also over zero input rows,
the first CSV row written is the fixed 11-column header, and it precedes
every data row. -/
theorem claim_c4_header_first (http : String → Response) (api_key : String)
    (max_rows_to_process : Int) (rows : List InputRow) :
    ∃ data_rows, (main_loop http api_key max_rows_to_process rows).1 =
      [some (Json.str "STR_ID"), some (Json.str "Latitude"), some (Json.str "Longitude"),
       some (Json.str "Source"), some (Json.str "Accuracy"), some (Json.str "Match_Type"),
       some (Json.str "Matched_Address"), some (Json.str "Matched_Locality"),
       some (Json.str "Matched_Postalcode"), some (Json.str "Matched_Region"),
       some (Json.str "Matched_Country")] :: data_rows :=
  ⟨(process_rows http api_key max_rows_to_process rows 1).1, rfl⟩

/-- Claim C7: every call of geocode_address issues exactly one HTTP GET,
and its URL is the fixed base URL followed by exactly the six query
parameters api_key, address, locality, postalcode, region, country,
urlencoded from the call's arguments in that order. -/
theorem claim_c7_single_get (api_key address locality postalcode region country : String)
    (http : String → Response) :
    ((geocode_address api_key address locality postalcode region country http).1).filter
        Effect.isHttpGet =
      [Effect.httpGet (base_url ++ "?" ++ urlencode
        [("api_key", api_key), ("address", address), ("locality", locality),
         ("postalcode", postalcode), ("region", region), ("country", country)])] := rfl

/-- Claim C8: every call of geocode_address begins with the fixed sleep
of delay_seconds, the HTTP GET appears in the trace after it, and every
GET of the trace lies after the sleep, so no request is issued before
the sleep completes. -/
theorem claim_c8_sleep_before_get (api_key address locality postalcode region country : String)
    (http : String → Response) :
    ∃ tail_effects,
      (geocode_address api_key address locality postalcode region country http).1 =
        Effect.sleep delay_seconds :: tail_effects ∧
      (∃ u, Effect.httpGet u ∈ tail_effects) ∧
      ∀ u, Effect.httpGet u ∈
          (geocode_address api_key address locality postalcode region country http).1 →
        Effect.httpGet u ∈ tail_effects := by
  refine ⟨_, rfl, ⟨geocode_full_url api_key address locality postalcode region country,
    List.mem_cons_self _ _⟩, ?_⟩
  intro u hu
  rcases List.mem_cons.mp hu with h | h
  · exact absurd h (by simp)
  · exact h

/-- Witness for C8 at concrete arguments and oracle. -/
theorem claim_c8_witness :
    ∃ tail_effects,
      (geocode_address "k" "a" "l" "p" "r" "c" http_404).1 =
        Effect.sleep delay_seconds :: tail_effects ∧
      (∃ u, Effect.httpGet u ∈ tail_effects) ∧
      ∀ u, Effect.httpGet u ∈ (geocode_address "k" "a" "l" "p" "r" "c" http_404).1 →
        Effect.httpGet u ∈ tail_effects :=
  claim_c8_sleep_before_get "k" "a" "l" "p" "r" "c" http_404

/-- Claim C1 counterexample: an HTTP 200 response whose JSON body holds
one feature (so the features array is nonempty) on which geocode_address
raises a KeyError instead of returning a 10-tuple, because the feature
has no properties entry; the claim as stated, quantifying over every 200
response with at least one feature, therefore fails. -/
theorem claim_c1_counterexample :
    pySubscript (Json.obj [("features", Json.arr [Json.obj []])]) "features" =
      Except.ok (Json.arr [Json.obj []]) ∧
    geocode_result ⟨200, some (Json.obj [("features", Json.arr [Json.obj []])])⟩ =
      Except.error (PyExc.keyError "properties") :=
  ⟨rfl, rfl⟩

/-- The success path of geocode_result: when the status is 200, the body
parses, the first feature exists and every extraction step succeeds, the
result is the tuple of the extracted pieces in return order. -/
theorem geocode_result_ok_of (resp : Response) (j fs ff props geom coords : Json)
    (lon lat source accuracy match_type m1 m2 m3 m4 m5 : Json)
    (hs : resp.status_code = 200) (hb : resp.body = some j)
    (hf : pySubscript j "features" = Except.ok fs)
    (hi : pyIndex fs 0 = Except.ok ff)
    (hp : pySubscript ff "properties" = Except.ok props)
    (hg : pySubscript ff "geometry" = Except.ok geom)
    (hc : pySubscript geom "coordinates" = Except.ok coords)
    (hu : pyUnpack2 coords = Except.ok (lon, lat))
    (h1 : pySubscript props "source" = Except.ok source)
    (h2 : pySubscript props "accuracy" = Except.ok accuracy)
    (h3 : pySubscript props "match_type" = Except.ok match_type)
    (g1 : pyDictGet props "street" (Json.str "N/A") = Except.ok m1)
    (g2 : pyDictGet props "locality" (Json.str "N/A") = Except.ok m2)
    (g3 : pyDictGet props "postalcode" (Json.str "N/A") = Except.ok m3)
    (g4 : pyDictGet props "region" (Json.str "N/A") = Except.ok m4)
    (g5 : pyDictGet props "country" (Json.str "N/A") = Except.ok m5) :
    geocode_result resp =
      Except.ok ⟨some lat, some lon, some source, some accuracy, some match_type,
        some m1, some m2, some m3, some m4, some m5⟩ := by
  rw [geocode_result, if_pos hs]
  simp [response_json, hb, hf, hi, hp, hg, hc, hu, h1, h2, h3, g1, g2, g3, g4, g5]

/-- Claim C1 (amended): for every HTTP 200 response whose body parses,
has at least one feature, and whose first feature is well formed (it has
properties with source, accuracy and match_type, and a geometry whose
coordinates unpack as a two-element (longitude, latitude) pair), the
call returns the 10-tuple whose first two components are latitude then
longitude, the reverse of the stored (longitude, latitude) order,
followed by source, accuracy, match type and the five matched address
components in that order. -/
theorem claim_c1_success_tuple (resp : Response) (j fs ff props geom coords : Json)
    (lon lat source accuracy match_type m1 m2 m3 m4 m5 : Json)
    (hs : resp.status_code = 200) (hb : resp.body = some j)
    (hf : pySubscript j "features" = Except.ok fs)
    (hi : pyIndex fs 0 = Except.ok ff)
    (hp : pySubscript ff "properties" = Except.ok props)
    (hg : pySubscript ff "geometry" = Except.ok geom)
    (hc : pySubscript geom "coordinates" = Except.ok coords)
    (hu : pyUnpack2 coords = Except.ok (lon, lat))
    (h1 : pySubscript props "source" = Except.ok source)
    (h2 : pySubscript props "accuracy" = Except.ok accuracy)
    (h3 : pySubscript props "match_type" = Except.ok match_type)
    (g1 : pyDictGet props "street" (Json.str "N/A") = Except.ok m1)
    (g2 : pyDictGet props "locality" (Json.str "N/A") = Except.ok m2)
    (g3 : pyDictGet props "postalcode" (Json.str "N/A") = Except.ok m3)
    (g4 : pyDictGet props "region" (Json.str "N/A") = Except.ok m4)
    (g5 : pyDictGet props "country" (Json.str "N/A") = Except.ok m5) :
    geocode_result resp =
      Except.ok ⟨some lat, some lon, some source, some accuracy, some match_type,
        some m1, some m2, some m3, some m4, some m5⟩ :=
  geocode_result_ok_of resp j fs ff props geom coords lon lat source accuracy match_type
    m1 m2 m3 m4 m5 hs hb hf hi hp hg hc hu h1 h2 h3 g1 g2 g3 g4 g5

/-- Witness for the amended C1 at a concrete well-formed 200 response:
coordinates stored as (151, -33) come back as latitude -33, longitude
151. -/
theorem claim_c1_witness :
    geocode_result ⟨200, some sample_body⟩ =
      Except.ok ⟨some (Json.num (-33)), some (Json.num 151),
        some (Json.str "openstreetmap"), some (Json.str "point"), some (Json.str "exact"),
        some (Json.str "Main St"), some (Json.str "N/A"), some (Json.str "N/A"),
        some (Json.str "N/A"), some (Json.str "N/A")⟩ :=
  claim_c1_success_tuple ⟨200, some sample_body⟩ sample_body
    (Json.arr [Json.obj
      [("properties", Json.obj
        [("source", Json.str "openstreetmap"), ("accuracy", Json.str "point"),
         ("match_type", Json.str "exact"), ("street", Json.str "Main St")]),
       ("geometry", Json.obj [("coordinates", Json.arr [Json.num 151, Json.num (-33)])])]])
    (Json.obj
      [("properties", Json.obj
        [("source", Json.str "openstreetmap"), ("accuracy", Json.str "point"),
         ("match_type", Json.str "exact"), ("street", Json.str "Main St")]),
       ("geometry", Json.obj [("coordinates", Json.arr [Json.num 151, Json.num (-33)])])])
    (Json.obj
      [("source", Json.str "openstreetmap"), ("accuracy", Json.str "point"),
       ("match_type", Json.str "exact"), ("street", Json.str "Main St")])
    (Json.obj [("coordinates", Json.arr [Json.num 151, Json.num (-33)])])
    (Json.arr [Json.num 151, Json.num (-33)])
    (Json.num 151) (Json.num (-33))
    (Json.str "openstreetmap") (Json.str "point") (Json.str "exact")
    (Json.str "Main St") (Json.str "N/A") (Json.str "N/A") (Json.str "N/A") (Json.str "N/A")
    rfl rfl rfl rfl rfl rfl rfl rfl rfl rfl rfl rfl rfl rfl rfl rfl

/-- Claim C6: for every HTTP 200 response that succeeds with at least
one feature, each of the five matched address components is returned as
the value stored in the feature's properties when the key is present and
as the literal string N/A when it is absent: the returned component is
exactly the lookup with default N/A. -/
theorem claim_c6_na_defaults (resp : Response) (j fs ff geom coords : Json)
    (pfs : List (String × Json)) (lon lat source accuracy match_type : Json)
    (hs : resp.status_code = 200) (hb : resp.body = some j)
    (hf : pySubscript j "features" = Except.ok fs)
    (hi : pyIndex fs 0 = Except.ok ff)
    (hp : pySubscript ff "properties" = Except.ok (Json.obj pfs))
    (hg : pySubscript ff "geometry" = Except.ok geom)
    (hc : pySubscript geom "coordinates" = Except.ok coords)
    (hu : pyUnpack2 coords = Except.ok (lon, lat))
    (h1 : pySubscript (Json.obj pfs) "source" = Except.ok source)
    (h2 : pySubscript (Json.obj pfs) "accuracy" = Except.ok accuracy)
    (h3 : pySubscript (Json.obj pfs) "match_type" = Except.ok match_type) :
    ∃ t, geocode_result resp = Except.ok t ∧
      t.matched_address = some ((pfs.lookup "street").getD (Json.str "N/A")) ∧
      t.matched_locality = some ((pfs.lookup "locality").getD (Json.str "N/A")) ∧
      t.matched_postalcode = some ((pfs.lookup "postalcode").getD (Json.str "N/A")) ∧
      t.matched_region = some ((pfs.lookup "region").getD (Json.str "N/A")) ∧
      t.matched_country = some ((pfs.lookup "country").getD (Json.str "N/A")) := by
  refine ⟨⟨some lat, some lon, some source, some accuracy, some match_type,
    some ((pfs.lookup "street").getD (Json.str "N/A")),
    some ((pfs.lookup "locality").getD (Json.str "N/A")),
    some ((pfs.lookup "postalcode").getD (Json.str "N/A")),
    some ((pfs.lookup "region").getD (Json.str "N/A")),
    some ((pfs.lookup "country").getD (Json.str "N/A"))⟩, ?_, rfl, rfl, rfl, rfl, rfl⟩
  exact geocode_result_ok_of resp j fs ff (Json.obj pfs) geom coords lon lat
    source accuracy match_type _ _ _ _ _ hs hb hf hi hp hg hc hu h1 h2 h3 rfl rfl rfl rfl rfl

/-- Witness for C6 at a concrete feature whose properties carry street
but none of locality, postalcode, region, country: the street comes back
as stored and the four absent components come back as N/A. -/
theorem claim_c6_witness :
    ∃ t, geocode_result ⟨200, some sample_body⟩ = Except.ok t ∧
      t.matched_address = some ((([("source", Json.str "openstreetmap"),
        ("accuracy", Json.str "point"), ("match_type", Json.str "exact"),
        ("street", Json.str "Main St")] : List (String × Json)).lookup "street").getD
          (Json.str "N/A")) ∧
      t.matched_locality = some ((([("source", Json.str "openstreetmap"),
        ("accuracy", Json.str "point"), ("match_type", Json.str "exact"),
        ("street", Json.str "Main St")] : List (String × Json)).lookup "locality").getD
          (Json.str "N/A")) ∧
      t.matched_postalcode = some ((([("source", Json.str "openstreetmap"),
        ("accuracy", Json.str "point"), ("match_type", Json.str "exact"),
        ("street", Json.str "Main St")] : List (String × Json)).lookup "postalcode").getD
          (Json.str "N/A")) ∧
      t.matched_region = some ((([("source", Json.str "openstreetmap"),
        ("accuracy", Json.str "point"), ("match_type", Json.str "exact"),
        ("street", Json.str "Main St")] : List (String × Json)).lookup "region").getD
          (Json.str "N/A")) ∧
      t.matched_country = some ((([("source", Json.str "openstreetmap"),
        ("accuracy", Json.str "point"), ("match_type", Json.str "exact"),
        ("street", Json.str "Main St")] : List (String × Json)).lookup "country").getD
          (Json.str "N/A")) :=
  claim_c6_na_defaults ⟨200, some sample_body⟩ sample_body
    (Json.arr [Json.obj
      [("properties", Json.obj
        [("source", Json.str "openstreetmap"), ("accuracy", Json.str "point"),
         ("match_type", Json.str "exact"), ("street", Json.str "Main St")]),
       ("geometry", Json.obj [("coordinates", Json.arr [Json.num 151, Json.num (-33)])])]])
    (Json.obj
      [("properties", Json.obj
        [("source", Json.str "openstreetmap"), ("accuracy", Json.str "point"),
         ("match_type", Json.str "exact"), ("street", Json.str "Main St")]),
       ("geometry", Json.obj [("coordinates", Json.arr [Json.num 151, Json.num (-33)])])])
    (Json.obj [("coordinates", Json.arr [Json.num 151, Json.num (-33)])])
    (Json.arr [Json.num 151, Json.num (-33)])
    [("source", Json.str "openstreetmap"), ("accuracy", Json.str "point"),
     ("match_type", Json.str "exact"), ("street", Json.str "Main St")]
    (Json.num 151) (Json.num (-33))
    (Json.str "openstreetmap") (Json.str "point") (Json.str "exact")
    rfl rfl rfl rfl rfl rfl rfl rfl rfl rfl rfl

/-- Claim C10: for every HTTP 200 response with at least one feature
whose geometry extraction succeeds, if the feature's properties lack any
of the keys source, accuracy, match_type, geocode_address raises an
unhandled KeyError for the first missing one of those keys rather than
substituting a default value. -/
theorem claim_c10_missing_mandatory_raises (resp : Response) (j fs ff geom coords : Json)
    (pfs : List (String × Json)) (lon lat : Json)
    (hs : resp.status_code = 200) (hb : resp.body = some j)
    (hf : pySubscript j "features" = Except.ok fs)
    (hi : pyIndex fs 0 = Except.ok ff)
    (hp : pySubscript ff "properties" = Except.ok (Json.obj pfs))
    (hg : pySubscript ff "geometry" = Except.ok geom)
    (hc : pySubscript geom "coordinates" = Except.ok coords)
    (hu : pyUnpack2 coords = Except.ok (lon, lat))
    (hmiss : pfs.lookup "source" = none ∨ pfs.lookup "accuracy" = none ∨
      pfs.lookup "match_type" = none) :
    ∃ key, (key = "source" ∨ key = "accuracy" ∨ key = "match_type") ∧
      pfs.lookup key = none ∧
      geocode_result resp = Except.error (PyExc.keyError key) := by
  rw [geocode_result, if_pos hs]
  cases h1 : pfs.lookup "source" with
  | none =>
    have e1 : pySubscript (Json.obj pfs) "source" = Except.error (PyExc.keyError "source") := by
      simp [pySubscript, h1]
    exact ⟨"source", Or.inl rfl, h1,
      by simp [response_json, hb, hf, hi, hp, hg, hc, hu, e1]⟩
  | some s =>
    have e1 : pySubscript (Json.obj pfs) "source" = Except.ok s := by
      simp [pySubscript, h1]
    cases h2 : pfs.lookup "accuracy" with
    | none =>
      have e2 : pySubscript (Json.obj pfs) "accuracy" =
          Except.error (PyExc.keyError "accuracy") := by
        simp [pySubscript, h2]
      exact ⟨"accuracy", Or.inr (Or.inl rfl), h2,
        by simp [response_json, hb, hf, hi, hp, hg, hc, hu, e1, e2]⟩
    | some a =>
      have e2 : pySubscript (Json.obj pfs) "accuracy" = Except.ok a := by
        simp [pySubscript, h2]
      cases h3 : pfs.lookup "match_type" with
      | none =>
        have e3 : pySubscript (Json.obj pfs) "match_type" =
            Except.error (PyExc.keyError "match_type") := by
          simp [pySubscript, h3]
        exact ⟨"match_type", Or.inr (Or.inr rfl), h3,
          by simp [response_json, hb, hf, hi, hp, hg, hc, hu, e1, e2, e3]⟩
      | some m =>
        rcases hmiss with h | h | h <;> simp_all

/-- Witness for C10 at a concrete 200 response whose feature properties
lack accuracy. -/
theorem claim_c10_witness :
    ∃ key, (key = "source" ∨ key = "accuracy" ∨ key = "match_type") ∧
      ([("source", Json.str "openstreetmap"), ("match_type", Json.str "exact"),
        ("street", Json.str "Main St")] : List (String × Json)).lookup key = none ∧
      geocode_result ⟨200, some body_no_accuracy⟩ = Except.error (PyExc.keyError key) :=
  claim_c10_missing_mandatory_raises ⟨200, some body_no_accuracy⟩ body_no_accuracy
    (Json.arr [Json.obj
      [("properties", Json.obj
        [("source", Json.str "openstreetmap"), ("match_type", Json.str "exact"),
         ("street", Json.str "Main St")]),
       ("geometry", Json.obj [("coordinates", Json.arr [Json.num 151, Json.num (-33)])])]])
    (Json.obj
      [("properties", Json.obj
        [("source", Json.str "openstreetmap"), ("match_type", Json.str "exact"),
         ("street", Json.str "Main St")]),
       ("geometry", Json.obj [("coordinates", Json.arr [Json.num 151, Json.num (-33)])])])
    (Json.obj [("coordinates", Json.arr [Json.num 151, Json.num (-33)])])
    (Json.arr [Json.num 151, Json.num (-33)])
    [("source", Json.str "openstreetmap"), ("match_type", Json.str "exact"),
     ("street", Json.str "Main St")]
    (Json.num 151) (Json.num (-33))
    rfl rfl rfl rfl rfl rfl rfl rfl (Or.inr (Or.inl rfl))

/-- The per-row lookup is the parse of the row's response. -/
theorem geocode_row_eq (http : String → Response) (api_key : String) (row : InputRow) :
    geocode_row http api_key row = geocode_result (row_response http api_key row) := rfl

/-- The tuple always has ten components. -/
theorem ResultTuple_toList_length (t : ResultTuple) : t.toList.length = 10 := rfl

/-- Every data row the cursor loop emits is the STR_ID of some input row
followed by the ten components of the tuple its lookup returned. -/
theorem process_rows_mem (http : String → Response) (api_key : String) (m : Int) :
    ∀ (rows : List InputRow) (n : Int) (r : List (Option Json)),
      r ∈ (process_rows http api_key m rows n).1 →
      ∃ row res, row ∈ rows ∧ geocode_row http api_key row = Except.ok res ∧
        r = some (Json.str row.str_id) :: res.toList := by
  intro rows
  induction rows with
  | nil => intro n r hr; simp [process_rows] at hr
  | cons row rest ih =>
    intro n r hr
    rw [process_rows] at hr
    cases hres : geocode_row http api_key row with
    | error e => rw [hres] at hr; simp at hr
    | ok res =>
      rw [hres] at hr
      dsimp only at hr
      by_cases hge : n ≥ m
      · rw [if_pos hge] at hr
        simp only [List.mem_singleton] at hr
        exact ⟨row, res, List.mem_cons_self _ _, hres, hr⟩
      · rw [if_neg hge] at hr
        rcases List.mem_cons.mp hr with h | h
        · exact ⟨row, res, List.mem_cons_self _ _, hres, h⟩
        · rcases ih (n + 1) r h with ⟨row2, res2, hmem, hok, hsh⟩
          exact ⟨row2, res2, List.mem_cons_of_mem _ hmem, hok, hsh⟩

/-- Claim C9: every row the main loop writes has exactly 11 fields, the
arity of the header, and every data row is the input row's STR_ID
followed by the 10 components the lookup returned for that row (the
all-None components included, since a non-200 lookup returns the
all-None tuple and is written like any other). -/
theorem claim_c9_row_arity (http : String → Response) (api_key : String)
    (max_rows_to_process : Int) (rows : List InputRow) (r : List (Option Json))
    (hr : r ∈ (main_loop http api_key max_rows_to_process rows).1) :
    r.length = 11 ∧ (r = header_row ∨ ∃ row res, row ∈ rows ∧
      geocode_row http api_key row = Except.ok res ∧
      r = some (Json.str row.str_id) :: res.toList) := by
  have hr2 : r = header_row ∨
      r ∈ (process_rows http api_key max_rows_to_process rows 1).1 :=
    List.mem_cons.mp hr
  rcases hr2 with h | h
  · subst h; exact ⟨rfl, Or.inl rfl⟩
  · rcases process_rows_mem http api_key _ rows 1 r h with ⟨row, res, hmem, hok, hsh⟩
    refine ⟨?_, Or.inr ⟨row, res, hmem, hok, hsh⟩⟩
    rw [hsh]; rfl

/-- Witness for C9: in a concrete run over one row against an oracle
answering 404, the written data row has 11 fields and the documented
shape. -/
theorem claim_c9_witness :
    (some (Json.str "S1") :: none_tuple.toList).length = 11 ∧
      (some (Json.str "S1") :: none_tuple.toList = header_row ∨
        ∃ row res, row ∈ [sample_row_1] ∧
          geocode_row http_404 "k" row = Except.ok res ∧
          some (Json.str "S1") :: none_tuple.toList =
            some (Json.str row.str_id) :: res.toList) :=
  claim_c9_row_arity http_404 "k" 5 [sample_row_1] (some (Json.str "S1") :: none_tuple.toList)
    (by rw [show (main_loop http_404 "k" 5 [sample_row_1]).1 =
          [header_row, some (Json.str "S1") :: none_tuple.toList] from rfl]
        exact List.mem_cons_of_mem _ (List.mem_cons_self _ _))

/-- The cursor loop from counter n on, when no lookup raises and the cap
has not yet been passed: it writes one row per input row in input order
and stops after row counter m, so it emits the first (m - n + 1) input
rows' outputs. -/
theorem process_rows_all_ok (http : String → Response) (api_key : String) (m : Int) :
    ∀ (rows : List InputRow) (n : Int), n ≤ m →
      (∀ row ∈ rows, okB (geocode_row http api_key row) = true) →
      process_rows http api_key m rows n =
        ((rows.take (m - n + 1).toNat).map (out_row http api_key), none) := by
  intro rows
  induction rows with
  | nil => intro n hn hok; simp [process_rows]
  | cons row rest ih =>
    intro n hn hok
    have hrow := hok row (List.mem_cons_self row rest)
    rw [process_rows]
    cases hres : geocode_row http api_key row with
    | error e => rw [hres] at hrow; simp [okB] at hrow
    | ok res =>
      dsimp only
      have hout : some (Json.str row.str_id) :: res.toList = out_row http api_key row := by
        simp [out_row, hres, Except.toOption]
      by_cases hge : n ≥ m
      · have hnm : (m - n + 1).toNat = 1 := by omega
        rw [if_pos hge, hnm]
        simp [hout]
      · have hn1 : n + 1 ≤ m := by omega
        have hnm : (m - n + 1).toNat = (m - (n + 1) + 1).toNat + 1 := by omega
        rw [if_neg hge]
        rw [ih (n + 1) hn1 (fun r hr => hok r (List.mem_cons_of_mem _ hr)), hnm]
        simp [hout]

/-- Claim C2 counterexample: with the cap set to 0 and one input row,
the loop still writes one data row, because the break is only checked
after the row is written; the claimed count min(input rows, cap) = 0 is
wrong there. -/
theorem claim_c2_counterexample :
    ((main_loop http_404 "k" 0 [sample_row_1]).1).tail.length = 1 ∧
    ¬ ((main_loop http_404 "k" 0 [sample_row_1]).1).tail.length =
        min [sample_row_1].length (Int.toNat 0) := by
  have h : ((main_loop http_404 "k" 0 [sample_row_1]).1).tail.length = 1 := rfl
  exact ⟨h, by rw [h]; decide⟩

/-- Claim C2 (amended): for every input row sequence and every cap of at
least 1, when no lookup raises, the main loop writes exactly one data
row per processed input row, in input order, and stops once the row
counter reaches the cap, so the data rows are the outputs of the first
min(input rows, cap) input rows; with a cap below 1 the break is only
reached after the first write, so one data row is written whenever there
is at least one input row. -/
theorem claim_c2_capped_rows (http : String → Response) (api_key : String) (m : Int)
    (rows : List InputRow) (hm : 1 ≤ m)
    (hok : ∀ row ∈ rows, okB (geocode_row http api_key row) = true) :
    (main_loop http api_key m rows).1 =
      header_row :: (rows.take m.toNat).map (out_row http api_key) ∧
    ((main_loop http api_key m rows).1).tail.length = min rows.length m.toNat := by
  have h := process_rows_all_ok http api_key m rows 1 hm hok
  have ht : (m - 1 + 1).toNat = m.toNat := by omega
  rw [ht] at h
  constructor
  · show header_row :: (process_rows http api_key m rows 1).1 = _
    rw [h]
  · show ((header_row :: (process_rows http api_key m rows 1).1)).tail.length = _
    rw [h]
    simp only [List.tail_cons, List.length_map, List.length_take]
    omega

/-- Witness for the amended C2: three input rows, cap 2, oracle
answering 404: the loop writes the first two rows' outputs and stops. -/
theorem claim_c2_witness :
    (main_loop http_404 "k" 2 [sample_row_1, sample_row_2, sample_row_3]).1 =
      header_row :: ([sample_row_1, sample_row_2, sample_row_3].take (Int.toNat 2)).map
        (out_row http_404 "k") ∧
    ((main_loop http_404 "k" 2 [sample_row_1, sample_row_2, sample_row_3]).1).tail.length =
      min [sample_row_1, sample_row_2, sample_row_3].length (Int.toNat 2) :=
  claim_c2_capped_rows http_404 "k" 2 [sample_row_1, sample_row_2, sample_row_3]
    (by decide) (by decide)

/-- The cursor loop meeting a raising row after a prefix of successful
rows, the cap not yet reached: the prefix rows are written and the raise
stops the loop there. -/
theorem process_rows_error_at (http : String → Response) (api_key : String) (m : Int)
    (row : InputRow) (rest : List InputRow) (e : PyExc)
    (he : geocode_row http api_key row = Except.error e) :
    ∀ (good : List InputRow) (n : Int), n + (good.length : Int) ≤ m →
      (∀ r ∈ good, okB (geocode_row http api_key r) = true) →
      process_rows http api_key m (good ++ row :: rest) n =
        (good.map (out_row http api_key), some e) := by
  intro good
  induction good with
  | nil =>
    intro n hn hok
    simp only [List.nil_append, List.map_nil]
    rw [process_rows, he]
  | cons q qs ih =>
    intro n hn hok
    have hq := hok q (List.mem_cons_self q qs)
    cases hres : geocode_row http api_key q with
    | error e2 => rw [hres] at hq; simp [okB] at hq
    | ok res =>
      have hout : some (Json.str q.str_id) :: res.toList = out_row http api_key q := by
        simp [out_row, hres, Except.toOption]
      simp only [List.length_cons, Nat.cast_add, Nat.cast_one] at hn
      have hge : ¬ n ≥ m := by omega
      rw [List.cons_append, process_rows, hres]
      dsimp only
      rw [if_neg hge,
        ih (n + 1) (by omega) (fun r hr => hok r (List.mem_cons_of_mem _ hr))]
      simp [hout]

/-- Claim C5: for a row whose HTTP response has status 200 but a body
that is not parseable JSON, or whose JSON has no usable features array
(no features key, a non-array value, or an empty array), geocode_address
raises an unhandled exception instead of returning a tuple, and the run
of the main loop that reaches this row terminates with that exception:
only the header and the rows before the raising one are written, the
rows after it are lost. -/
theorem claim_c5_bad_features_raises (http : String → Response) (api_key : String)
    (max_rows_to_process : Int) (good : List InputRow) (row : InputRow) (rest : List InputRow)
    (hpre : ∀ r ∈ good, okB (geocode_row http api_key r) = true)
    (hlen : (good.length : Int) < max_rows_to_process)
    (hs : (row_response http api_key row).status_code = 200)
    (hb : (row_response http api_key row).body = none ∨
      ∃ j, (row_response http api_key row).body = some j ∧
        ((∃ e, pySubscript j "features" = Except.error e) ∨
         ∃ fs, pySubscript j "features" = Except.ok fs ∧
           ∃ e, pyIndex fs 0 = Except.error e)) :
    ∃ e, geocode_row http api_key row = Except.error e ∧
      main_loop http api_key max_rows_to_process (good ++ row :: rest) =
        (header_row :: good.map (out_row http api_key), some e) := by
  have hgr : ∃ e, geocode_row http api_key row = Except.error e := by
    rw [geocode_row_eq, geocode_result, if_pos hs]
    rcases hb with hbn | ⟨j, hbj, ⟨e, hfe⟩ | ⟨fs, hfs, e, hie⟩⟩
    · exact ⟨PyExc.jsonDecodeError, by simp [response_json, hbn]⟩
    · exact ⟨e, by simp [response_json, hbj, hfe]⟩
    · exact ⟨e, by simp [response_json, hbj, hfs, hie]⟩
  rcases hgr with ⟨e, he⟩
  refine ⟨e, he, ?_⟩
  show (header_row ::
      (process_rows http api_key max_rows_to_process (good ++ row :: rest) 1).1,
    (process_rows http api_key max_rows_to_process (good ++ row :: rest) 1).2) = _
  rw [process_rows_error_at http api_key max_rows_to_process row rest e he good 1
    (by omega) hpre]

/-- Witness for C5 at a concrete oracle whose 200 response carries an
empty features array: the lookup raises and the batch run over two rows
stops with only the header written. -/
theorem claim_c5_witness :
    ∃ e, geocode_row http_200_empty_features "k" sample_row_1 = Except.error e ∧
      main_loop http_200_empty_features "k" 99999 ([] ++ sample_row_1 :: [sample_row_2]) =
        (header_row :: ([] : List InputRow).map (out_row http_200_empty_features "k"),
          some e) :=
  claim_c5_bad_features_raises http_200_empty_features "k" 99999 [] sample_row_1 [sample_row_2]
    (by simp) (by decide) rfl
    (Or.inr ⟨Json.obj [("features", Json.arr [])], rfl,
      Or.inr ⟨Json.arr [], rfl, PyExc.indexError, rfl⟩⟩)

end OsmGeocode
